import Mathlib

/-!
Shallow embedding of the RVC voice-conversion inference pipeline
(`src/docker/rvc/inference.py`) and proofs of its specified properties.

Audio samples are modelled as lists of rational amplitudes; the sample
rate travels alongside the samples where the code determines it.  All
external collaborators (the model deserializer, the audio decoder and
resampler, tensor/device binding, the pitch-shift effect and the file
writer) are modelled as an explicit environment of possibly-failing
functions, so the pipeline's own control flow — the part the source
file actually implements — is embedded exactly.
-/

namespace RVC

/-- A mono sample sequence: ordered amplitudes. -/
abbrev Samples := List Rat

/-- A sample sequence together with the rate it is known to be at. -/
structure RAudio where
  samples : Samples
  rate : Nat
deriving DecidableEq, Repr

/-- The execution target selected on the command line (`--device`). -/
inductive Device where
  | cpu
  | cuda
deriving DecidableEq, Repr

/-- A loaded conversion network: it may or may not expose an `infer`
operation (`hasattr(self.net_g, 'infer')`); when it does, the operation
is a possibly-failing transformation of the bound sample tensor
(inference plus output extraction, either of which may raise).  The
`iterable` field records whether the object's type supports Python's
container protocol (`__contains__`, `__iter__` or `__getitem__`): a
plain `nn.Module` defines none of these, while container modules such
as `nn.Sequential` do.  The `in` operator of line 41 raises `TypeError`
on the former and falls back to iteration on the latter. -/
structure Network where
  infer : Option (Samples → Except String Samples)
  iterable : Bool

/-- A deserialized model artifact: either a keyed mapping (a checkpoint
dictionary, whose values are again artifacts) or a bare network. -/
inductive Artifact where
  | dict (entries : List (String × Artifact))
  | net (n : Network)

/-- Non-fatal signals emitted by the conversion step: the passthrough
warning (line 69 of the source) and the conversion-failure message
(line 71). -/
inductive Signal where
  | passthroughWarning
  | conversionFailure (msg : String)
deriving DecidableEq, Repr

/-- Errors that escape the pipeline, tagged by the stage that raised. -/
inductive PError where
  | modelLoad (msg : String)
  | extractError (msg : String)
  | audioRead (msg : String)
  | bindError (msg : String)
  | pitchShiftError (msg : String)
  | audioWrite (msg : String)
deriving DecidableEq, Repr

/-- A completed write of samples to a file at a rate (`sf.write`). -/
structure WriteEvent where
  path : String
  samples : Samples
  rate : Nat
deriving DecidableEq, Repr

/-- The external collaborators of the pipeline, each as a function the
embedding threads through explicitly: `loadModel` is `torch.load`,
`decode` is `librosa.load` returning samples at the file's native rate,
`resample` is `librosa.resample (samples, fromRate, toRate)`, `bind` is
`torch.from_numpy(...).float().to(device)` (which raises for an
unavailable device), `pitchShiftFx` is `librosa.effects.pitch_shift`
(which raises on invalid input such as an empty sequence), and `write`
is `sf.write`. -/
structure Env where
  loadModel : String → Device → Except String Artifact
  decode : String → Except String RAudio
  resample : Samples → Nat → Nat → Samples
  bind : Device → Samples → Except String Samples
  pitchShiftFx : Samples → Nat → Int → Except String Samples
  write : String → Samples → Nat → Except String Unit

/-- Embedding of `load_audio(path, sr)` (source lines 19–24): decode at
the native rate, then resample only when the native rate differs from
the target. -/
def load_audio (env : Env) (path : String) (sr : Nat) : Except String RAudio :=
  match env.decode path with
  | .error e => .error e
  | .ok a =>
    if a.rate ≠ sr then
      .ok ⟨env.resample a.samples a.rate sr, sr⟩
    else
      .ok a

/-- Embedding of `save_audio(path, audio, sr)` (source lines 26–28). -/
def save_audio (env : Env) (path : String) (audio : Samples) (sr : Nat) :
    Except String Unit :=
  env.write path audio sr

/-- Embedding of the component-extraction step of `RVCInference.__init__`
(source lines 41–44), membership semantics included.  The probe
`"model" in self.model` is a key test on a keyed mapping, so a mapping
yields the `"model"` field when present and the mapping itself
otherwise.  On a bare network the probe dispatches on the container
protocol of the object's type: an iterable network (for example an
`nn.Sequential`, whose iteration yields submodules, none of which
compares equal to a string) makes the probe return false, so the
network itself is used; a non-container network (a plain `nn.Module`)
makes the `in` operator itself raise `TypeError`, and that error
escapes `__init__`. -/
def extractNetwork (a : Artifact) : Except String Artifact :=
  match a with
  | .dict entries =>
    match entries.lookup "model" with
    | some v => .ok v
    | none => .ok (.dict entries)
  | .net n =>
    if n.iterable then .ok (.net n)
    else .error "TypeError: argument of type Module is not iterable"

/-- The "model" field of an artifact, when the artifact is a keyed
mapping containing one.  This definition follows the spec's words
(§4.2): the intended, never-failing extraction returns this field when
present and the artifact itself otherwise, and it is compared against
`extractNetwork`, which is embedded from the source. -/
def lookupModelField (a : Artifact) : Option Artifact :=
  match a with
  | .dict entries => entries.lookup "model"
  | .net _ => none

/-- The capability probe `hasattr(self.net_g, 'infer')` (line 63): a
keyed mapping has no `infer` operation; a bare network has one exactly
when its `infer` field is populated. -/
def hasInferAttr (a : Artifact) : Bool :=
  match a with
  | .net n => n.infer.isSome
  | .dict _ => false

/-- The `infer` operation of an artifact, when it exposes one. -/
def lookupInfer (a : Artifact) : Option (Samples → Except String Samples) :=
  match a with
  | .net n => n.infer
  | .dict _ => none

/-- The protected region of the conversion step (source lines 61–72,
the `try`/`except`): probe for the `infer` capability; if present, run
inference on the bound tensor `t` and extract its output; any error is
caught and the original `audio` is substituted with a conversion-failure
signal; without the capability, pass `audio` through with a passthrough
warning.  Total by construction, mirroring `except Exception`. -/
def modelTransform (netg : Artifact) (t audio : Samples) : Samples × List Signal :=
  match netg with
  | .net n =>
    match n.infer with
    | some f =>
      match f t with
      | .ok out => (out, [])
      | .error e => (audio, [.conversionFailure e])
    | none => (audio, [.passthroughWarning])
  | .dict _ => (audio, [.passthroughWarning])

/-- The model-transformation block of `convert` (source lines 57–72):
bind the samples to the execution target (line 58, outside the
`try`), then run the protected region.  A binding failure propagates;
everything after binding is total. -/
def conversionBlock (env : Env) (dev : Device) (netg : Artifact) (audio : Samples) :
    Except String (Samples × List Signal) :=
  match env.bind dev audio with
  | .error e => .error e
  | .ok t => .ok (modelTransform netg t audio)

/-- The pitch-shift stage (source lines 74–78): apply the external
pitch-shift effect only when the requested shift is nonzero. -/
def pitchStage (env : Env) (audio : Samples) (sr : Nat) (n_steps : Int) :
    Except String Samples :=
  if n_steps ≠ 0 then env.pitchShiftFx audio sr n_steps else .ok audio

/-- The state constructed by `RVCInference.__init__` (source lines
31–46): the device, the two paths, the loaded artifact and the
extracted network. -/
structure RVCInference where
  device : Device
  model_path : String
  index_path : Option String
  model : Artifact
  net_g : Artifact

/-- Embedding of `RVCInference.__init__`: load the model artifact
(failures propagate as `ModelLoadError`) and extract the network; a
`TypeError` raised by the membership probe of line 41 also escapes the
constructor. -/
def initRVC (env : Env) (model_path : String) (index_path : Option String)
    (device : Device) : Except PError RVCInference :=
  match env.loadModel model_path device with
  | .error e => .error (.modelLoad e)
  | .ok artifact =>
    match extractNetwork artifact with
    | .error e => .error (.extractError e)
    | .ok netg => .ok ⟨device, model_path, index_path, artifact, netg⟩

/-- The observable outcome of one `convert` call: the returned value or
the propagated error, the non-fatal signals emitted, the completed file
writes, the write attempts (paths passed to the encoder), and the rates
of the sample sequences entering the conversion engine and the
pitch-shift stage. -/
structure ConvOut where
  outcome : Except PError String
  signals : List Signal
  writes : List WriteEvent
  writeAttempts : List String
  convertedAt : List Nat
  shiftedAt : List Nat

/-- Embedding of `RVCInference.convert` (source lines 48–84): load the
input audio at 16000 Hz, run the model-transformation block, apply the
optional pitch shift at 16000 Hz, and save the result at 16000 Hz.
The trace fields record, as ghost instrumentation, the rates at which
the engine and the shifter are entered and the writes attempted and
completed. -/
def RVCInference.convert (env : Env) (self : RVCInference)
    (input_path output_path : String) (pitch_shift : Int) : ConvOut :=
  match load_audio env input_path 16000 with
  | .error e => ⟨.error (.audioRead e), [], [], [], [], []⟩
  | .ok audio =>
    match conversionBlock env self.device self.net_g audio.samples with
    | .error e => ⟨.error (.bindError e), [], [], [], [audio.rate], []⟩
    | .ok (outSamples, sigs) =>
      match pitchStage env outSamples 16000 pitch_shift with
      | .error e =>
        ⟨.error (.pitchShiftError e), sigs, [], [], [audio.rate], [16000]⟩
      | .ok shifted =>
        match save_audio env output_path shifted 16000 with
        | .error e =>
          ⟨.error (.audioWrite e), sigs, [], [output_path], [audio.rate], [16000]⟩
        | .ok _ =>
          ⟨.ok output_path, sigs, [⟨output_path, shifted, 16000⟩],
            [output_path], [audio.rate], [16000]⟩

/-- One whole pipeline invocation (`main`, after argument validation):
construct the inference object, then convert.  A model-load failure
aborts before any audio work. -/
def runPipeline (env : Env) (model_path : String) (index_path : Option String)
    (device : Device) (input_path output_path : String) (pitch : Int) : ConvOut :=
  match initRVC env model_path index_path device with
  | .error e => ⟨.error e, [], [], [], [], []⟩
  | .ok rvc => rvc.convert env input_path output_path pitch

/-- A concrete environment in which every collaborator succeeds: the
model is a checkpoint mapping whose `"model"` field is a network
without an `infer` operation, the input decodes to two samples already
at 16000 Hz, binding and writing succeed. -/
def envPass : Env where
  loadModel := fun _ _ => .ok (.dict [("model", .net ⟨none, false⟩)])
  decode := fun _ => .ok ⟨[1, 2], 16000⟩
  resample := fun s _ _ => s
  bind := fun _ a => .ok a
  pitchShiftFx := fun a _ _ => .ok a
  write := fun _ _ _ => .ok ()

/-- A concrete environment whose device binding always fails, as
`torch.Tensor.to` does for an unavailable accelerator. -/
def envBindFail : Env where
  loadModel := fun _ _ => .ok (.dict [("model", .net ⟨none, false⟩)])
  decode := fun _ => .ok ⟨[1, 2], 16000⟩
  resample := fun s _ _ => s
  bind := fun _ _ => .error "device binding failed"
  pitchShiftFx := fun a _ _ => .ok a
  write := fun _ _ _ => .ok ()

/-- A concrete environment whose loaded checkpoint carries a network
exposing an `infer` operation that always raises. -/
def envInferFail : Env where
  loadModel := fun _ _ =>
    .ok (.dict [("model", .net ⟨some fun _ => .error "shape mismatch", false⟩)])
  decode := fun _ => .ok ⟨[1, 2], 16000⟩
  resample := fun s _ _ => s
  bind := fun _ a => .ok a
  pitchShiftFx := fun a _ _ => .ok a
  write := fun _ _ _ => .ok ()

/-- A concrete environment whose input decodes to an empty sample
sequence and whose pitch-shift effect raises on empty input, as
`librosa.effects.pitch_shift` does. -/
def envEmpty : Env where
  loadModel := fun _ _ => .ok (.dict [("model", .net ⟨none, false⟩)])
  decode := fun _ => .ok ⟨[], 16000⟩
  resample := fun s _ _ => s
  bind := fun _ a => .ok a
  pitchShiftFx := fun a _ _ => if a.isEmpty then .error "empty input" else .ok a
  write := fun _ _ _ => .ok ()

/-! ## Helper lemmas -/

/-- When an artifact exposes an `infer` operation, the protected region
runs exactly that operation and degrades its errors to passthrough. -/
theorem modelTransform_of_infer (netg : Artifact) (f : Samples → Except String Samples)
    (t audio : Samples) (h : lookupInfer netg = some f) :
    modelTransform netg t audio =
      match f t with
      | .ok out => (out, [])
      | .error e => (audio, [.conversionFailure e]) := by
  cases netg with
  | dict entries => simp [lookupInfer] at h
  | net n =>
    simp only [lookupInfer] at h
    simp [modelTransform, h]

/-- Whatever `load_audio` returns is at the requested rate. -/
theorem load_audio_rate_eq (env : Env) (path : String) (sr : Nat) (a : RAudio)
    (h : load_audio env path sr = .ok a) : a.rate = sr := by
  unfold load_audio at h
  cases hd : env.decode path with
  | error e => rw [hd] at h; exact absurd h (by simp)
  | ok b =>
    rw [hd] at h
    by_cases hr : b.rate = sr
    · simp only [hr, ne_eq, not_true_eq_false, if_neg, if_false, ite_false,
        not_not] at h
      cases h
      exact hr
    · simp only [ne_eq, hr, not_false_eq_true, if_true, ite_true] at h
      cases h
      rfl

/-! ## Claims -/

/-- C2.  The extraction step of `RVCInference.__init__` is not
failure-free: on a bare non-container network — the typical plain
`nn.Module`, whose type defines none of `__contains__`, `__iter__`,
`__getitem__` — the membership probe `"model" in self.model` of line
41 itself raises `TypeError` and the error escapes the constructor,
while the spec-side selection says the artifact itself should have
been returned unchanged. -/
theorem extractNetwork_raises_on_bare_module :
    extractNetwork (Artifact.net ⟨none, false⟩)
        = .error "TypeError: argument of type Module is not iterable" ∧
    (lookupModelField (Artifact.net ⟨none, false⟩)).getD (Artifact.net ⟨none, false⟩)
        = Artifact.net ⟨none, false⟩ :=
  ⟨rfl, rfl⟩

/-- C7.  The pitch-shift stage with zero semitones is the identity: it
returns exactly the samples it was given and applies no effect. -/
theorem pitch_shift_zero_identity (env : Env) (audio : Samples) (sr : Nat) :
    pitchStage env audio sr 0 = .ok audio := by
  simp [pitchStage]

/-- C9.  Two pipeline invocations identical in everything but the
index-artifact path (including present versus absent) produce identical
outcomes, signals, writes and traces: the index path is stored at
construction but never read by the conversion logic. -/
theorem index_path_noninterference (env : Env) (mp : String) (ip1 ip2 : Option String)
    (dev : Device) (inp outp : String) (pitch : Int) :
    runPipeline env mp ip1 dev inp outp pitch = runPipeline env mp ip2 dev inp outp pitch := by
  unfold runPipeline initRVC
  cases env.loadModel mp dev with
  | error e => rfl
  | ok art =>
    cases hx : extractNetwork art with
    | error e => simp only [hx]
    | ok netg =>
      simp only [hx]
      rfl

/-- C1 (counterexample).  The model-transformation block does propagate
an exception for some loaded network, input and execution target: when
binding the input tensor to the execution target fails, the error
escapes `convert`, because the binding happens before the protected
region begins. -/
theorem conversionBlock_bind_failure_propagates :
    conversionBlock envBindFail Device.cuda (Artifact.net ⟨some fun t => .ok t, false⟩) [1]
      = .error "device binding failed" := rfl

/-- C1 (amended).  Once the input tensor is bound to the execution
target, the model-transformation block of `convert` never propagates an
exception: whatever error occurs during capability probing, inference
or output extraction, the call completes and yields either the
converted samples or the original input samples unchanged. -/
theorem conversionBlock_total_after_bind (env : Env) (dev : Device) (netg : Artifact)
    (audio t : Samples) (h : env.bind dev audio = .ok t) :
    ∃ out sigs, conversionBlock env dev netg audio = .ok (out, sigs) ∧
      (out = audio ∨ ∃ f, lookupInfer netg = some f ∧ f t = .ok out) := by
  unfold conversionBlock
  rw [h]
  cases netg with
  | dict entries => exact ⟨audio, [.passthroughWarning], rfl, .inl rfl⟩
  | net n =>
    cases hn : n.infer with
    | none =>
      exact ⟨audio, [.passthroughWarning], by simp [modelTransform, hn], .inl rfl⟩
    | some f =>
      cases hf : f t with
      | ok out =>
        exact ⟨out, [], by simp [modelTransform, hn, hf],
          .inr ⟨f, by simp [lookupInfer, hn], hf⟩⟩
      | error e =>
        exact ⟨audio, [.conversionFailure e], by simp [modelTransform, hn, hf], .inl rfl⟩

/-- C1 (witness).  The amended contract at a concrete input. -/
theorem conversionBlock_total_after_bind_witness :
    ∃ out sigs, conversionBlock envPass Device.cpu (Artifact.dict []) [1] = .ok (out, sigs) ∧
      (out = [1] ∨ ∃ f, lookupInfer (Artifact.dict []) = some f ∧ f [1] = .ok out) :=
  conversionBlock_total_after_bind envPass Device.cpu (Artifact.dict []) [1] [1] rfl

/-- C4.  For every network that does not expose an `infer` operation,
the conversion step returns the input samples unchanged and emits the
passthrough warning. -/
theorem no_infer_passthrough (env : Env) (dev : Device) (netg : Artifact)
    (audio t : Samples) (hni : hasInferAttr netg = false)
    (hb : env.bind dev audio = .ok t) :
    conversionBlock env dev netg audio = .ok (audio, [.passthroughWarning]) := by
  unfold conversionBlock
  rw [hb]
  cases netg with
  | dict entries => rfl
  | net n =>
    cases hn : n.infer with
    | none => simp [modelTransform, hn]
    | some f =>
      rw [hasInferAttr, hn] at hni
      simp at hni

/-- C4 (witness).  Passthrough at a concrete inference-less network. -/
theorem no_infer_passthrough_witness :
    conversionBlock envPass Device.cpu (Artifact.net ⟨none, false⟩) [1, 2] =
      .ok ([1, 2], [.passthroughWarning]) :=
  no_infer_passthrough envPass Device.cpu (Artifact.net ⟨none, false⟩) [1, 2] [1, 2] rfl rfl

/-- C6.  For every readable audio file and every target rate, the audio
loader returns samples at exactly the target rate; and when the file's
native rate already equals the target, the decoded samples are returned
unchanged — no resampling is applied. -/
theorem load_audio_target_rate (env : Env) (path : String) (sr : Nat) (a : RAudio)
    (h : env.decode path = .ok a) :
    (∃ vals, load_audio env path sr = .ok ⟨vals, sr⟩) ∧
    (a.rate = sr → load_audio env path sr = .ok a) := by
  unfold load_audio
  rw [h]
  by_cases hr : a.rate = sr
  · constructor
    · refine ⟨a.samples, ?_⟩
      simp only [ne_eq, hr, not_true_eq_false, if_false, ite_false]
      rw [show a = ⟨a.samples, a.rate⟩ from rfl, hr]
    · intro _
      simp [hr]
  · constructor
    · exact ⟨env.resample a.samples a.rate sr, by simp [hr]⟩
    · intro hc
      exact absurd hc hr

/-- C6 (witness).  Loading at 16000 Hz from a file whose native rate is
already 16000 Hz returns the decoded samples unchanged. -/
theorem load_audio_target_rate_witness :
    (∃ vals, load_audio envPass "in.wav" 16000 = .ok ⟨vals, 16000⟩) ∧
    ((⟨[1, 2], 16000⟩ : RAudio).rate = 16000 →
      load_audio envPass "in.wav" 16000 = .ok ⟨[1, 2], 16000⟩) :=
  load_audio_target_rate envPass "in.wav" 16000 ⟨[1, 2], 16000⟩ rfl

/-- C3.  When the network's inference operation raises, `convert`
catches the error, substitutes exactly the original input samples,
emits the conversion-failure signal, and the invocation still proceeds
through pitch shift and encode to completion: the outcome is success
and the output file is written. -/
theorem inference_error_degrades_to_done (env : Env) (mp : String) (ip : Option String)
    (dev : Device) (inp outp : String) (pitch : Int) (art netg : Artifact) (audio : RAudio)
    (t : Samples) (f : Samples → Except String Samples) (emsg : String) (shifted : Samples)
    (hload : env.loadModel mp dev = .ok art)
    (hx : extractNetwork art = .ok netg)
    (hla : load_audio env inp 16000 = .ok audio)
    (hb : env.bind dev audio.samples = .ok t)
    (hf : lookupInfer netg = some f)
    (hfe : f t = .error emsg)
    (hps : pitchStage env audio.samples 16000 pitch = .ok shifted)
    (hw : env.write outp shifted 16000 = .ok ()) :
    runPipeline env mp ip dev inp outp pitch =
      ⟨.ok outp, [.conversionFailure emsg], [⟨outp, shifted, 16000⟩],
        [outp], [audio.rate], [16000]⟩ := by
  unfold runPipeline initRVC
  simp only [hload, hx, RVCInference.convert, hla, conversionBlock, hb,
    modelTransform_of_infer _ f t audio.samples hf, hfe, hps, save_audio, hw]

/-- C3 (witness).  A network whose inference always raises still drives
the pipeline to a written output file carrying the original samples. -/
theorem inference_error_degrades_to_done_witness :
    runPipeline envInferFail "m.pth" none Device.cpu "in.wav" "out.wav" 0 =
      ⟨.ok "out.wav", [.conversionFailure "shape mismatch"],
        [⟨"out.wav", [1, 2], 16000⟩], ["out.wav"], [16000], [16000]⟩ :=
  inference_error_degrades_to_done envInferFail "m.pth" none Device.cpu "in.wav" "out.wav" 0
    (Artifact.dict [("model", .net ⟨some fun _ => .error "shape mismatch", false⟩)])
    (Artifact.net ⟨some fun _ => .error "shape mismatch", false⟩)
    ⟨[1, 2], 16000⟩ [1, 2]
    (fun _ => .error "shape mismatch") "shape mismatch" [1, 2]
    rfl rfl rfl rfl rfl rfl rfl rfl

/-- C5.  When the pitch-shift stage raises, the pipeline aborts with a
pitch-shift error: the encoder is never invoked and no output file is
written. -/
theorem pitch_shift_error_aborts (env : Env) (mp : String) (ip : Option String)
    (dev : Device) (inp outp : String) (pitch : Int) (art netg : Artifact) (audio : RAudio)
    (t : Samples) (emsg : String)
    (hload : env.loadModel mp dev = .ok art)
    (hx : extractNetwork art = .ok netg)
    (hla : load_audio env inp 16000 = .ok audio)
    (hb : env.bind dev audio.samples = .ok t)
    (hps : pitchStage env (modelTransform netg t audio.samples).1 16000 pitch
            = .error emsg) :
    (runPipeline env mp ip dev inp outp pitch).outcome
        = .error (.pitchShiftError emsg) ∧
    (runPipeline env mp ip dev inp outp pitch).writeAttempts = [] ∧
    (runPipeline env mp ip dev inp outp pitch).writes = [] := by
  rcases hmt : modelTransform netg t audio.samples with ⟨o, s⟩
  rw [hmt] at hps
  unfold runPipeline initRVC
  simp only [hload, hx, RVCInference.convert, hla, conversionBlock, hb, hmt, hps]
  exact ⟨trivial, trivial, trivial⟩

/-- C5 (witness).  An empty input with a nonzero requested shift makes
the pitch-shift stage raise; the pipeline aborts without writing. -/
theorem pitch_shift_error_aborts_witness :
    (runPipeline envEmpty "m.pth" none Device.cpu "in.wav" "out.wav" 2).outcome
        = .error (.pitchShiftError "empty input") ∧
    (runPipeline envEmpty "m.pth" none Device.cpu "in.wav" "out.wav" 2).writeAttempts = [] ∧
    (runPipeline envEmpty "m.pth" none Device.cpu "in.wav" "out.wav" 2).writes = [] :=
  pitch_shift_error_aborts envEmpty "m.pth" none Device.cpu "in.wav" "out.wav" 2
    (Artifact.dict [("model", .net ⟨none, false⟩)]) (Artifact.net ⟨none, false⟩)
    ⟨[], 16000⟩ [] "empty input" rfl rfl rfl rfl rfl

/-- C8.  In every pipeline invocation, the sample sequence entering the
conversion engine is at 16000 Hz, the pitch-shift stage is entered at
16000 Hz, and every completed write encodes at 16000 Hz. -/
theorem sample_rate_invariant (env : Env) (mp : String) (ip : Option String) (dev : Device)
    (inp outp : String) (pitch : Int) :
    (∀ r ∈ (runPipeline env mp ip dev inp outp pitch).convertedAt, r = 16000) ∧
    (∀ r ∈ (runPipeline env mp ip dev inp outp pitch).shiftedAt, r = 16000) ∧
    (∀ w ∈ (runPipeline env mp ip dev inp outp pitch).writes, w.rate = 16000) := by
  unfold runPipeline initRVC
  cases hload : env.loadModel mp dev with
  | error e => simp
  | ok art =>
    cases hx : extractNetwork art with
    | error e => simp [hx]
    | ok netg =>
      simp only [hx, RVCInference.convert]
      cases hla : load_audio env inp 16000 with
      | error e => simp [hla]
      | ok audio =>
        have hrate := load_audio_rate_eq env inp 16000 audio hla
        cases hcb : conversionBlock env dev netg audio.samples with
        | error e => simp [hla, hcb, hrate]
        | ok p =>
          rcases p with ⟨o, s⟩
          cases hps : pitchStage env o 16000 pitch with
          | error e => simp [hla, hcb, hps, hrate]
          | ok shifted =>
            cases hw : save_audio env outp shifted 16000 with
            | error e => simp [hla, hcb, hps, hw, hrate]
            | ok u => simp [hla, hcb, hps, hw, hrate]

/-- C8 (witness).  The rate invariant at a concrete invocation in which
the engine is actually entered. -/
theorem sample_rate_invariant_witness :
    16000 ∈ (runPipeline envPass "m.pth" none Device.cpu "in.wav" "out.wav" 0).convertedAt ∧
    (16000 : Nat) = 16000 :=
  ⟨by decide,
    (sample_rate_invariant envPass "m.pth" none Device.cpu "in.wav" "out.wav" 0).1
      16000 (by decide)⟩

/-- C10.  With a zero pitch shift the pitch-shift stage is skipped and
never raises, even on an empty sample sequence: an invocation whose
conversion output is empty still proceeds to encode and the (empty)
output file is written. -/
theorem pitch_zero_skips_shift (env : Env) (mp : String) (ip : Option String)
    (dev : Device) (inp outp : String) (art netg : Artifact) (audio : RAudio) (t : Samples)
    (hload : env.loadModel mp dev = .ok art)
    (hx : extractNetwork art = .ok netg)
    (hla : load_audio env inp 16000 = .ok audio)
    (hb : env.bind dev audio.samples = .ok t)
    (hw : env.write outp (modelTransform netg t audio.samples).1 16000 = .ok ()) :
    (runPipeline env mp ip dev inp outp 0).outcome = .ok outp ∧
    (runPipeline env mp ip dev inp outp 0).writes =
      [⟨outp, (modelTransform netg t audio.samples).1, 16000⟩] := by
  rcases hmt : modelTransform netg t audio.samples with ⟨o, s⟩
  rw [hmt] at hw
  unfold runPipeline initRVC
  simp only [hload, hx, RVCInference.convert, hla, conversionBlock, hb, hmt, pitchStage,
    save_audio]
  simp [hw, hmt]

/-- C10 (witness).  An empty conversion output with zero pitch shift
still yields a written (empty) output file and a successful outcome. -/
theorem pitch_zero_skips_shift_witness :
    (runPipeline envEmpty "m.pth" none Device.cpu "in.wav" "out.wav" 0).outcome
        = .ok "out.wav" ∧
    (runPipeline envEmpty "m.pth" none Device.cpu "in.wav" "out.wav" 0).writes =
      [⟨"out.wav", (modelTransform (Artifact.net ⟨none, false⟩) [] []).1, 16000⟩] :=
  pitch_zero_skips_shift envEmpty "m.pth" none Device.cpu "in.wav" "out.wav"
    (Artifact.dict [("model", .net ⟨none, false⟩)]) (Artifact.net ⟨none, false⟩)
    ⟨[], 16000⟩ [] rfl rfl rfl rfl rfl

end RVC
